import Mathlib

/-!
Shallow embedding of the authorization and ownership-enforcement layer of the
news-aggregation backend (`app/` package: `auth/dependencies.py`,
`routers/auth.py`, `routers/source.py`, `routers/articles.py`, `models.py`).

Storage is modelled as in-memory lists of entity records; each request handler
is a pure function from the request inputs and the storage state to a result
paired with the successor storage state.  Server-generated values (fresh ids,
timestamps) and the collaborators that live outside the embedded code
(the JWT decoding performed by the `jose` library, the bcrypt hash/verify pair
from `app/auth/security.py`) are passed in as explicit parameters.
-/

namespace NewsAgg

/-- Domain error kinds, one per distinct `HTTPException` status raised by the
routers: 401 for credential failures, 403 for authorization failures, 404 for
missing entities, and the duplicate-check rejection which the code surfaces
with status 422. -/
inductive DomainError where
  | invalidCredentials
  | forbidden
  | notFound
  | conflict
  deriving Repr, DecidableEq

/-- The HTTP status code each error kind is raised with in the routers. -/
def DomainError.statusCode : DomainError → Nat
  | .invalidCredentials => 401
  | .forbidden => 403
  | .notFound => 404
  | .conflict => 422

/-- Row of the `users` table (`models.py`, class `User`). -/
structure User where
  id : Nat
  username : String
  email : String
  password : String
  role : String
  created_at : Nat
  deriving Repr, DecidableEq

/-- Row of the `sources` table (`models.py`, class `Source`). -/
structure Source where
  id : Nat
  name : String
  url : String
  description : Option String
  author_id : Nat
  created_at : Nat
  deriving Repr, DecidableEq

/-- Row of the `articles` table (`models.py`, class `Article`). -/
structure Article where
  id : Nat
  title : String
  summary : Option String
  content : String
  author_name : Option String
  source_id : Nat
  author_id : Nat
  created_at : Nat
  deriving Repr, DecidableEq

/-- The persisted state: the three tables. -/
structure DB where
  users : List User
  sources : List Source
  articles : List Article
  deriving Repr, DecidableEq

/-- `select(User).where(User.id == uid)` + `scalar_one_or_none()`. -/
def findUser (db : DB) (uid : Nat) : Option User :=
  db.users.find? (fun u => u.id == uid)

/-- `select(User).where(User.email == e)` + `scalar_one_or_none()`. -/
def findUserByEmail (db : DB) (e : String) : Option User :=
  db.users.find? (fun u => u.email == e)

/-- `select(User).where(User.username == n)` + `scalar_one_or_none()`. -/
def findUserByUsername (db : DB) (n : String) : Option User :=
  db.users.find? (fun u => u.username == n)

/-- `select(Source).where(Source.id == sid)` + `scalar_one_or_none()`. -/
def findSource (db : DB) (sid : Nat) : Option Source :=
  db.sources.find? (fun s => s.id == sid)

/-- `select(Source).where(Source.url == u)` + `scalar_one_or_none()`. -/
def findSourceByUrl (db : DB) (u : String) : Option Source :=
  db.sources.find? (fun s => s.url == u)

/-- `select(Article).where(Article.id == aid)` + `scalar_one_or_none()`. -/
def findArticle (db : DB) (aid : Nat) : Option Article :=
  db.articles.find? (fun a => a.id == aid)

/-- The claims dictionary produced by a successful `jwt.decode`; each claim is
read with `payload.get(...)`, which yields `None` when absent. -/
structure JWTPayload where
  user_id : Option Nat
  role : Option String
  deriving Repr, DecidableEq

/-- Outcome of `jwt.decode(token, SECRET_KEY, algorithms=[ALGORITHM])`: the
`jose` library either returns a payload or raises `JWTError` (covering a
malformed or unparseable token, an invalid signature, and an expired token
alike, which the embedded code catches as one exception class). -/
def DecodeOutcome := Except Unit JWTPayload

/-- `get_current_user` (`auth/dependencies.py`): decode the bearer token,
require the `user_id` and `role` claims, load the user by the decoded id, and
return the freshly loaded user record; every failure raises the single
`credentials_exception` (status 401). -/
def get_current_user (decoded : DecodeOutcome) (db : DB) : Except DomainError User :=
  match decoded with
  | .error _ => .error .invalidCredentials
  | .ok payload =>
    match payload.user_id, payload.role with
    | some uid, some _role =>
      match findUser db uid with
      | none => .error .invalidCredentials
      | some user => .ok user
    | _, _ => .error .invalidCredentials

/-- `require_role(role)` body (`auth/dependencies.py`): 403 unless the
resolved user's stored role equals the required role. -/
def role_checker (role : String) (current_user : User) : Except DomainError User :=
  if current_user.role != role then .error .forbidden else .ok current_user

/-- The composed dependency `Depends(require_role(role))`: resolve the
principal with `get_current_user`, then run the role check on it. -/
def require_role (role : String) (decoded : DecodeOutcome) (db : DB) :
    Except DomainError User :=
  match get_current_user decoded db with
  | .error e => .error e
  | .ok user => role_checker role user

/-- The ownership check inlined identically in `update_source`,
`delete_source`, `update_article` and `delete_article`:
`is_admin = current_user.role == "admin"`,
`is_author = resource.author_id == current_user.id`,
reject unless `is_admin or is_author`.  Returns `true` for ALLOW. -/
def require_owner_or_admin (current_user : User) (resource_owner_id : Nat) : Bool :=
  let is_admin := current_user.role == "admin"
  let is_author := resource_owner_id == current_user.id
  !(!is_admin && !is_author)

/-- Request body of `POST /register` (`schemas.py`, `UserCreate`): username,
email, password only — the schema exposes no role field. -/
structure UserCreate where
  username : String
  email : String
  password : String
  deriving Repr, DecidableEq

/-- `register_user` (`routers/auth.py`): reject a duplicate email, then a
duplicate username, each with an explicit pre-insert lookup; otherwise hash
the password and insert a user whose role is the literal `"user"`.  The
password hasher `get_password_hash` lives in `app/auth/security.py` and is
passed in; the storage-assigned id and timestamp are parameters. -/
def register_user (hash : String → String) (user_in : UserCreate) (db : DB)
    (new_id created_at : Nat) : Except DomainError User × DB :=
  if (findUserByEmail db user_in.email).isSome then
    (.error .conflict, db)
  else if (findUserByUsername db user_in.username).isSome then
    (.error .conflict, db)
  else
    let new_user : User :=
      { id := new_id, username := user_in.username, email := user_in.email,
        password := hash user_in.password, role := "user",
        created_at := created_at }
    (.ok new_user, { db with users := db.users ++ [new_user] })

/-- `login_for_access_token` (`routers/auth.py`): look the user up by email;
if absent or the password does not verify, raise 401; otherwise issue a token
over the claims `{user_id: user.id, role: user.role}` (returned here as the
claims pair; `verify_password` from `app/auth/security.py` is a parameter). -/
def login_for_access_token (verify : String → String → Bool)
    (email password : String) (db : DB) : Except DomainError (Nat × String) :=
  match findUserByEmail db email with
  | none => .error .invalidCredentials
  | some user =>
    if verify password user.password then .ok (user.id, user.role)
    else .error .invalidCredentials

/-- Request body of `POST /sources/` (`schemas.py`, `SourceCreate`). -/
structure SourceCreate where
  name : String
  url : String
  description : Option String
  deriving Repr, DecidableEq

/-- Request body of `PATCH /sources/{id}` (`schemas.py`, `SourceUpdate`):
every field optional; `none` models a field absent from the request, which
`model_dump(exclude_unset=True)` omits. -/
structure SourceUpdate where
  name : Option String
  url : Option String
  description : Option (Option String)
  deriving Repr, DecidableEq

/-- The `setattr` loop of `update_source` over
`source_in.model_dump(exclude_unset=True)`: each supplied field overwrites the
stored one; absent fields are not touched. -/
def apply_source_update (s : Source) (u : SourceUpdate) : Source :=
  { s with
    name := u.name.getD s.name,
    url := u.url.getD s.url,
    description := u.description.getD s.description }

/-- `create_source` (`routers/source.py`): reject a duplicate url with an
explicit pre-insert lookup; otherwise insert the source with
`author_id = current_user.id`. -/
def create_source (source_in : SourceCreate) (db : DB) (current_user : User)
    (new_id created_at : Nat) : Except DomainError Source × DB :=
  if (findSourceByUrl db source_in.url).isSome then
    (.error .conflict, db)
  else
    let new_source : Source :=
      { id := new_id, name := source_in.name, url := source_in.url,
        description := source_in.description, author_id := current_user.id,
        created_at := created_at }
    (.ok new_source, { db with sources := db.sources ++ [new_source] })

/-- `update_source` (`routers/source.py`): 404 when the id is unknown, 403
when the caller is neither admin nor the author, otherwise apply the supplied
fields and commit. -/
def update_source (source_id : Nat) (source_in : SourceUpdate) (db : DB)
    (current_user : User) : Except DomainError Source × DB :=
  match findSource db source_id with
  | none => (.error .notFound, db)
  | some source =>
    if !(require_owner_or_admin current_user source.author_id) then
      (.error .forbidden, db)
    else
      let updated := apply_source_update source source_in
      (.ok updated,
       { db with sources :=
           db.sources.map (fun s => if s.id == source_id then updated else s) })

/-- `delete_source` (`routers/source.py`): 404 when the id is unknown, 403
when the caller is neither admin nor the author, otherwise
`db.delete(source_to_delete)`; the ORM relationship
`cascade="all, delete-orphan"` (`models.py`, `Source.articles`, backed by the
foreign key `ondelete="CASCADE"`) deletes every article of the source with
it. -/
def delete_source (source_id : Nat) (db : DB) (current_user : User) :
    Except DomainError Unit × DB :=
  match findSource db source_id with
  | none => (.error .notFound, db)
  | some source_to_delete =>
    if !(require_owner_or_admin current_user source_to_delete.author_id) then
      (.error .forbidden, db)
    else
      (.ok (),
       { db with
         sources := db.sources.filter (fun s => s.id != source_id),
         articles := db.articles.filter (fun a => a.source_id != source_id) })

/-- Request body of `POST /articles/` (`schemas.py`, `ArticleCreate`). -/
structure ArticleCreate where
  title : String
  summary : Option String
  content : String
  source_id : Nat
  deriving Repr, DecidableEq

/-- Request body of `PATCH /articles/{id}` (`schemas.py`, `ArticleUpdate`):
every field optional; `none` models a field absent from the request. -/
structure ArticleUpdate where
  title : Option String
  summary : Option (Option String)
  content : Option String
  author_name : Option (Option String)
  deriving Repr, DecidableEq

/-- The `setattr` loop of `update_article` over
`article_in.model_dump(exclude_unset=True)`. -/
def apply_article_update (a : Article) (u : ArticleUpdate) : Article :=
  { a with
    title := u.title.getD a.title,
    summary := u.summary.getD a.summary,
    content := u.content.getD a.content,
    author_name := u.author_name.getD a.author_name }

/-- `create_article` (`routers/articles.py`): 404 when the referenced source
does not exist; otherwise insert the article with
`author_id = current_user.id`. -/
def create_article (article_in : ArticleCreate) (db : DB) (current_user : User)
    (new_id created_at : Nat) : Except DomainError Article × DB :=
  if !(findSource db article_in.source_id).isSome then
    (.error .notFound, db)
  else
    let new_article : Article :=
      { id := new_id, title := article_in.title, summary := article_in.summary,
        content := article_in.content, author_name := none,
        source_id := article_in.source_id, author_id := current_user.id,
        created_at := created_at }
    (.ok new_article, { db with articles := db.articles ++ [new_article] })

/-- `update_article` (`routers/articles.py`): 404 when the id is unknown, 403
when the caller is neither admin nor the author, otherwise apply the supplied
fields and commit. -/
def update_article (article_id : Nat) (article_in : ArticleUpdate) (db : DB)
    (current_user : User) : Except DomainError Article × DB :=
  match findArticle db article_id with
  | none => (.error .notFound, db)
  | some article =>
    if !(require_owner_or_admin current_user article.author_id) then
      (.error .forbidden, db)
    else
      let updated := apply_article_update article article_in
      (.ok updated,
       { db with articles :=
           db.articles.map (fun a => if a.id == article_id then updated else a) })

/-- `delete_article` (`routers/articles.py`): 404 when the id is unknown, 403
when the caller is neither admin nor the author, otherwise
`delete(Article).where(Article.id == article_id)`. -/
def delete_article (article_id : Nat) (db : DB) (current_user : User) :
    Except DomainError Unit × DB :=
  match findArticle db article_id with
  | none => (.error .notFound, db)
  | some article =>
    if !(require_owner_or_admin current_user article.author_id) then
      (.error .forbidden, db)
    else
      (.ok (),
       { db with articles := db.articles.filter (fun a => a.id != article_id) })

/-! Concrete fixtures used to instantiate the theorems below. -/

/-- A regular user with id 5. -/
def u5 : User :=
  { id := 5, username := "alice", email := "a@x.com", password := "h1",
    role := "user", created_at := 0 }

/-- A regular user with id 7. -/
def u7 : User :=
  { id := 7, username := "bob", email := "b@x.com", password := "h2",
    role := "user", created_at := 0 }

/-- An administrator principal with id 7. -/
def admin7 : User :=
  { id := 7, username := "carol", email := "c@x.com", password := "h3",
    role := "admin", created_at := 0 }

/-- A source owned by user 5. -/
def src1 : Source :=
  { id := 1, name := "S1", url := "u1", description := none, author_id := 5,
    created_at := 0 }

/-- A source owned by user 7. -/
def src2 : Source :=
  { id := 2, name := "S2", url := "u2", description := none, author_id := 7,
    created_at := 0 }

/-- An article of source 1, authored by user 5. -/
def art1 : Article :=
  { id := 1, title := "T1", summary := none, content := "C1",
    author_name := none, source_id := 1, author_id := 5, created_at := 0 }

/-- A small populated storage state. -/
def db0 : DB := { users := [u5, u7], sources := [src1, src2], articles := [art1] }

/-- C1: the owner-or-admin check used on update and delete of sources and
articles returns ALLOW exactly when the principal's role is "admin" or the
principal's id equals the resource's author_id; whenever the target entity
exists, each of the four mutating handlers results in Forbidden exactly when
the check denies; and on a resource owned by user 5, principal {id:5,
role:"user"} is allowed, {id:7, role:"user"} is forbidden, and {id:7,
role:"admin"} is allowed. -/
theorem C1_owner_or_admin_gate :
    (∀ (u : User) (oid : Nat),
       require_owner_or_admin u oid = true ↔ (u.role = "admin" ∨ u.id = oid)) ∧
    (∀ (sid : Nat) (si : SourceUpdate) (db : DB) (u : User) (s : Source),
       findSource db sid = some s →
       ((update_source sid si db u).1 = .error .forbidden ↔
         require_owner_or_admin u s.author_id = false)) ∧
    (∀ (sid : Nat) (db : DB) (u : User) (s : Source),
       findSource db sid = some s →
       ((delete_source sid db u).1 = .error .forbidden ↔
         require_owner_or_admin u s.author_id = false)) ∧
    (∀ (aid : Nat) (ai : ArticleUpdate) (db : DB) (u : User) (a : Article),
       findArticle db aid = some a →
       ((update_article aid ai db u).1 = .error .forbidden ↔
         require_owner_or_admin u a.author_id = false)) ∧
    (∀ (aid : Nat) (db : DB) (u : User) (a : Article),
       findArticle db aid = some a →
       ((delete_article aid db u).1 = .error .forbidden ↔
         require_owner_or_admin u a.author_id = false)) ∧
    require_owner_or_admin u5 5 = true ∧
    require_owner_or_admin u7 5 = false ∧
    require_owner_or_admin admin7 5 = true := by
  refine ⟨?_, ?_, ?_, ?_, ?_, by decide, by decide, by decide⟩
  · intro u oid
    have h : require_owner_or_admin u oid = true ↔ (u.role = "admin" ∨ oid = u.id) := by
      simp [require_owner_or_admin]
    rw [h]
    exact or_congr Iff.rfl eq_comm
  · intro sid si db u s hfind
    simp only [update_source, hfind]
    cases h : require_owner_or_admin u s.author_id <;> simp [h]
  · intro sid db u s hfind
    simp only [delete_source, hfind]
    cases h : require_owner_or_admin u s.author_id <;> simp [h]
  · intro aid ai db u a hfind
    simp only [update_article, hfind]
    cases h : require_owner_or_admin u a.author_id <;> simp [h]
  · intro aid db u a hfind
    simp only [delete_article, hfind]
    cases h : require_owner_or_admin u a.author_id <;> simp [h]

/-- C1 witness: on the concrete storage state, user 7 (not admin, not author)
is refused the update of source 1, which is owned by user 5. -/
theorem C1_owner_or_admin_gate_witness :
    (update_source 1 ⟨none, none, none⟩ db0 u7).1 = .error .forbidden :=
  (C1_owner_or_admin_gate.2.1 1 ⟨none, none, none⟩ db0 u7 src1 (by decide)).2
    (by decide)

/-- C2: for a token carrying the id of a stored user, the identity resolver
returns that freshly loaded user record itself as the principal, whatever
role claim the token embeds; consequently `require_role` decides on the
stored role (not the token's), and the owner-or-admin check applied to this
principal allows exactly by the stored role or id. -/
theorem C2_fresh_role_from_storage (uid : Nat) (token_role : String) (db : DB)
    (user : User) (hfind : findUser db uid = some user)
    (_hdiff : token_role ≠ user.role) :
    get_current_user (.ok ⟨some uid, some token_role⟩) db = .ok user ∧
    (∀ r : String, user.role = r →
       require_role r (.ok ⟨some uid, some token_role⟩) db = .ok user) ∧
    (∀ r : String, user.role ≠ r →
       require_role r (.ok ⟨some uid, some token_role⟩) db = .error .forbidden) ∧
    (∀ oid : Nat,
       require_owner_or_admin user oid = true ↔
         (user.role = "admin" ∨ user.id = oid)) := by
  have hres : get_current_user (.ok ⟨some uid, some token_role⟩) db = .ok user := by
    simp [get_current_user, hfind]
  refine ⟨hres, ?_, ?_, ?_⟩
  · intro r hr
    simp [require_role, hres, role_checker, hr]
  · intro r hr
    simp [require_role, hres, role_checker, hr]
  · intro oid
    have h : require_owner_or_admin user oid = true ↔
        (user.role = "admin" ∨ oid = user.id) := by
      simp [require_owner_or_admin]
    rw [h]
    exact or_congr Iff.rfl eq_comm

/-- C2 witness: a token for user 5 whose embedded role claim says "admin"
still resolves to the stored record with role "user", and the admin role
check on it fails. -/
theorem C2_fresh_role_from_storage_witness :
    get_current_user (.ok ⟨some 5, some "admin"⟩) db0 = .ok u5 ∧
    require_role "admin" (.ok ⟨some 5, some "admin"⟩) db0 = .error .forbidden := by
  have h := C2_fresh_role_from_storage 5 "admin" db0 u5 (by decide) (by decide)
  exact ⟨h.1, h.2.2.1 "admin" (by decide)⟩

/-- C3: every failing token resolution — decode failure (malformed token,
invalid signature, or expired token all raise the one `JWTError` the code
catches), a missing user_id claim, a missing role claim, or no stored user
under the decoded id — and every failing login — unknown email or a password
that does not verify — results in the one identical InvalidCredentials
outcome (raised with status 401). -/
theorem C3_undifferentiated_unauthorized :
    (∀ db : DB, get_current_user (.error ()) db = .error .invalidCredentials) ∧
    (∀ (db : DB) (r : Option String),
       get_current_user (.ok ⟨none, r⟩) db = .error .invalidCredentials) ∧
    (∀ (db : DB) (uid : Nat),
       get_current_user (.ok ⟨some uid, none⟩) db = .error .invalidCredentials) ∧
    (∀ (db : DB) (uid : Nat) (r : String), findUser db uid = none →
       get_current_user (.ok ⟨some uid, some r⟩) db = .error .invalidCredentials) ∧
    (∀ (verify : String → String → Bool) (email password : String) (db : DB),
       findUserByEmail db email = none →
       login_for_access_token verify email password db =
         .error .invalidCredentials) ∧
    (∀ (verify : String → String → Bool) (email password : String) (db : DB)
       (user : User), findUserByEmail db email = some user →
       verify password user.password = false →
       login_for_access_token verify email password db =
         .error .invalidCredentials) ∧
    DomainError.statusCode .invalidCredentials = 401 := by
  refine ⟨?_, ?_, ?_, ?_, ?_, ?_, rfl⟩
  · intro db; rfl
  · intro db r; cases r <;> rfl
  · intro db uid; rfl
  · intro db uid r h; simp [get_current_user, h]
  · intro verify email password db h; simp [login_for_access_token, h]
  · intro verify email password db user h hv
    simp [login_for_access_token, h, hv]

/-- C3 witness: on the concrete state, a token for the deleted user 9 and a
login with an unknown email both produce the same InvalidCredentials
outcome. -/
theorem C3_undifferentiated_unauthorized_witness :
    get_current_user (.ok ⟨some 9, some "user"⟩) db0 = .error .invalidCredentials ∧
    login_for_access_token (fun _ _ => true) "nobody@x.com" "pw" db0 =
      .error .invalidCredentials :=
  ⟨C3_undifferentiated_unauthorized.2.2.2.1 db0 9 "user" (by decide),
   C3_undifferentiated_unauthorized.2.2.2.2.1 (fun _ _ => true) "nobody@x.com"
     "pw" db0 (by decide)⟩

/-- C4: on every update or delete of a source or article, an unknown id
results in NotFound; an existing target with a principal that is neither
admin nor the author results in Forbidden with the storage state returned
completely unchanged — the authorization check precedes every mutating
storage operation. -/
theorem C4_reject_before_mutation :
    (∀ (sid : Nat) (si : SourceUpdate) (db : DB) (u : User),
       findSource db sid = none →
       update_source sid si db u = (.error .notFound, db)) ∧
    (∀ (sid : Nat) (si : SourceUpdate) (db : DB) (u : User) (s : Source),
       findSource db sid = some s →
       require_owner_or_admin u s.author_id = false →
       update_source sid si db u = (.error .forbidden, db)) ∧
    (∀ (sid : Nat) (db : DB) (u : User),
       findSource db sid = none →
       delete_source sid db u = (.error .notFound, db)) ∧
    (∀ (sid : Nat) (db : DB) (u : User) (s : Source),
       findSource db sid = some s →
       require_owner_or_admin u s.author_id = false →
       delete_source sid db u = (.error .forbidden, db)) ∧
    (∀ (aid : Nat) (ai : ArticleUpdate) (db : DB) (u : User),
       findArticle db aid = none →
       update_article aid ai db u = (.error .notFound, db)) ∧
    (∀ (aid : Nat) (ai : ArticleUpdate) (db : DB) (u : User) (a : Article),
       findArticle db aid = some a →
       require_owner_or_admin u a.author_id = false →
       update_article aid ai db u = (.error .forbidden, db)) ∧
    (∀ (aid : Nat) (db : DB) (u : User),
       findArticle db aid = none →
       delete_article aid db u = (.error .notFound, db)) ∧
    (∀ (aid : Nat) (db : DB) (u : User) (a : Article),
       findArticle db aid = some a →
       require_owner_or_admin u a.author_id = false →
       delete_article aid db u = (.error .forbidden, db)) := by
  refine ⟨?_, ?_, ?_, ?_, ?_, ?_, ?_, ?_⟩
  · intro sid si db u h; simp [update_source, h]
  · intro sid si db u s h hd; simp [update_source, h, hd]
  · intro sid db u h; simp [delete_source, h]
  · intro sid db u s h hd; simp [delete_source, h, hd]
  · intro aid ai db u h; simp [update_article, h]
  · intro aid ai db u a h hd; simp [update_article, h, hd]
  · intro aid db u h; simp [delete_article, h]
  · intro aid db u a h hd; simp [delete_article, h, hd]

/-- C4 witness: deleting the unknown source 9 yields NotFound, and user 7
attempting to delete article 1 (authored by user 5) yields Forbidden with the
storage state unchanged. -/
theorem C4_reject_before_mutation_witness :
    delete_source 9 db0 u7 = (.error .notFound, db0) ∧
    delete_article 1 db0 u7 = (.error .forbidden, db0) :=
  ⟨C4_reject_before_mutation.2.2.1 9 db0 u7 (by decide),
   C4_reject_before_mutation.2.2.2.2.2.2.2 1 db0 u7 art1 (by decide) (by decide)⟩

/-- C5: creating an article against a non-existent source fails with NotFound
and inserts nothing; when the source exists, the article is appended to
storage with author_id equal to the creating principal's id. -/
theorem C5_article_referential_integrity :
    (∀ (ai : ArticleCreate) (db : DB) (u : User) (nid t : Nat),
       findSource db ai.source_id = none →
       create_article ai db u nid t = (.error .notFound, db)) ∧
    (∀ (ai : ArticleCreate) (db : DB) (u : User) (nid t : Nat) (s : Source),
       findSource db ai.source_id = some s →
       ∃ art : Article,
         create_article ai db u nid t =
           (.ok art, { db with articles := db.articles ++ [art] }) ∧
         art.author_id = u.id ∧ art.source_id = ai.source_id) := by
  constructor
  · intro ai db u nid t h; simp [create_article, h]
  · intro ai db u nid t s h
    refine ⟨{ id := nid, title := ai.title, summary := ai.summary,
              content := ai.content, author_name := none,
              source_id := ai.source_id, author_id := u.id,
              created_at := t }, ?_, rfl, rfl⟩
    simp [create_article, h]

/-- C5 witness: creating an article on the unknown source 9 fails with
NotFound and leaves storage unchanged; creating one on the existing source 2
succeeds with the caller as author. -/
theorem C5_article_referential_integrity_witness :
    create_article ⟨"T", none, "C", 9⟩ db0 u5 3 1 = (.error .notFound, db0) ∧
    ∃ art : Article,
      create_article ⟨"T", none, "C", 2⟩ db0 u5 3 1 =
        (.ok art, { db0 with articles := db0.articles ++ [art] }) ∧
      art.author_id = u5.id ∧ art.source_id = 2 :=
  ⟨C5_article_referential_integrity.1 ⟨"T", none, "C", 9⟩ db0 u5 3 1 (by decide),
   C5_article_referential_integrity.2 ⟨"T", none, "C", 2⟩ db0 u5 3 1 src2
     (by decide)⟩

/-- C6: deleting a source by its author or an admin succeeds, and afterwards
no article with that source_id remains in storage — the dependents are
destroyed together with the source. -/
theorem C6_cascade_delete (sid : Nat) (db : DB) (u : User) (s : Source)
    (hfind : findSource db sid = some s)
    (hallow : require_owner_or_admin u s.author_id = true) :
    (delete_source sid db u).1 = .ok () ∧
    (∀ a ∈ (delete_source sid db u).2.articles, a.source_id ≠ sid) ∧
    ((delete_source sid db u).2.articles.filter
        (fun a => a.source_id == sid)).length = 0 := by
  have hrun : delete_source sid db u =
      (.ok (),
       { db with
         sources := db.sources.filter (fun x => x.id != sid),
         articles := db.articles.filter (fun a => a.source_id != sid) }) := by
    simp [delete_source, hfind, hallow]
  refine ⟨by rw [hrun], ?_, ?_⟩
  · intro a ha
    rw [hrun] at ha
    simp only [List.mem_filter, bne_iff_ne, ne_eq] at ha
    exact ha.2
  · rw [hrun]
    simp only [List.filter_filter]
    have h0 : ∀ a : Article,
        ((a.source_id == sid) && (a.source_id != sid)) = false := by
      intro a
      cases h : (a.source_id == sid) <;> simp [bne, h]
    simp only [Bool.and_comm] at h0 ⊢
    simp [h0]

/-- C6 witness: user 5 deletes source 1, which has one dependent article;
afterwards no article with source_id 1 remains. -/
theorem C6_cascade_delete_witness :
    (delete_source 1 db0 u5).1 = .ok () ∧
    ((delete_source 1 db0 u5).2.articles.filter
        (fun a => a.source_id == 1)).length = 0 :=
  ⟨(C6_cascade_delete 1 db0 u5 src1 (by decide) (by decide)).1,
   (C6_cascade_delete 1 db0 u5 src1 (by decide) (by decide)).2.2⟩

/-- C7: registering with an email or a username already stored fails with the
Conflict-kind domain error raised by the explicit pre-insert lookup (the code
surfaces it with status 422) and storage is returned unchanged, so no second
user row is created; creating a source with an already-used url fails the
same way with no insertion. -/
theorem C7_uniqueness_pre_insert :
    (∀ (hash : String → String) (ui : UserCreate) (db : DB) (nid t : Nat),
       (findUserByEmail db ui.email).isSome = true →
       register_user hash ui db nid t = (.error .conflict, db)) ∧
    (∀ (hash : String → String) (ui : UserCreate) (db : DB) (nid t : Nat),
       (findUserByUsername db ui.username).isSome = true →
       register_user hash ui db nid t = (.error .conflict, db)) ∧
    (∀ (si : SourceCreate) (db : DB) (u : User) (nid t : Nat),
       (findSourceByUrl db si.url).isSome = true →
       create_source si db u nid t = (.error .conflict, db)) ∧
    DomainError.statusCode .conflict = 422 := by
  refine ⟨?_, ?_, ?_, rfl⟩
  · intro hash ui db nid t h; simp [register_user, h]
  · intro hash ui db nid t h
    by_cases he : (findUserByEmail db ui.email).isSome = true
    · simp [register_user, he]
    · simp [register_user, he, h]
  · intro si db u nid t h; simp [create_source, h]

/-- C7 witness: re-registering alice's email and creating a source with the
already-used url "u1" both fail with Conflict and leave storage unchanged. -/
theorem C7_uniqueness_pre_insert_witness :
    register_user (fun p => p) ⟨"newname", "a@x.com", "pw"⟩ db0 9 1 =
      (.error .conflict, db0) ∧
    create_source ⟨"S", "u1", none⟩ db0 u7 9 1 = (.error .conflict, db0) :=
  ⟨C7_uniqueness_pre_insert.1 (fun p => p) ⟨"newname", "a@x.com", "pw"⟩ db0 9 1
     (by decide),
   C7_uniqueness_pre_insert.2.2.1 ⟨"S", "u1", none⟩ db0 u7 9 1 (by decide)⟩

/-- C8: on an authorized update of a source or an article, each supplied
field replaces the stored one and each absent field keeps its previous value
(Option.getD applies a supplied value and falls back to the stored one);
id, author_id, source_id and created_at are never touched, and the updated
record replaces the stored one in place. -/
theorem C8_update_frame :
    (∀ (sid : Nat) (si : SourceUpdate) (db : DB) (u : User) (s : Source),
       findSource db sid = some s →
       require_owner_or_admin u s.author_id = true →
       update_source sid si db u =
         (.ok (apply_source_update s si),
          { db with sources :=
              (db.sources.map
                (fun x => if x.id == sid then apply_source_update s si else x)) }) ∧
       (apply_source_update s si).name = si.name.getD s.name ∧
       (apply_source_update s si).url = si.url.getD s.url ∧
       (apply_source_update s si).description = si.description.getD s.description ∧
       (apply_source_update s si).id = s.id ∧
       (apply_source_update s si).author_id = s.author_id ∧
       (apply_source_update s si).created_at = s.created_at) ∧
    (∀ (aid : Nat) (ai : ArticleUpdate) (db : DB) (u : User) (a : Article),
       findArticle db aid = some a →
       require_owner_or_admin u a.author_id = true →
       update_article aid ai db u =
         (.ok (apply_article_update a ai),
          { db with articles :=
              (db.articles.map
                (fun x => if x.id == aid then apply_article_update a ai else x)) }) ∧
       (apply_article_update a ai).title = ai.title.getD a.title ∧
       (apply_article_update a ai).summary = ai.summary.getD a.summary ∧
       (apply_article_update a ai).content = ai.content.getD a.content ∧
       (apply_article_update a ai).author_name = ai.author_name.getD a.author_name ∧
       (apply_article_update a ai).id = a.id ∧
       (apply_article_update a ai).source_id = a.source_id ∧
       (apply_article_update a ai).author_id = a.author_id ∧
       (apply_article_update a ai).created_at = a.created_at) := by
  constructor
  · intro sid si db u s h hok
    refine ⟨?_, rfl, rfl, rfl, rfl, rfl, rfl⟩
    simp [update_source, h, hok]
  · intro aid ai db u a h hok
    refine ⟨?_, rfl, rfl, rfl, rfl, rfl, rfl, rfl, rfl⟩
    simp [update_article, h, hok]

/-- C8 witness: user 5 updates only the name of source 1; the name is
replaced and every other field keeps its stored value. -/
theorem C8_update_frame_witness :
    update_source 1 ⟨some "N", none, none⟩ db0 u5 =
      (.ok (apply_source_update src1 ⟨some "N", none, none⟩),
       { db0 with sources :=
           (db0.sources.map
             (fun x => if x.id == 1 then
               apply_source_update src1 ⟨some "N", none, none⟩ else x)) }) ∧
    (apply_source_update src1 ⟨some "N", none, none⟩).name = "N" ∧
    (apply_source_update src1 ⟨some "N", none, none⟩).url = src1.url ∧
    (apply_source_update src1 ⟨some "N", none, none⟩).author_id = src1.author_id := by
  have h := C8_update_frame.1 1 ⟨some "N", none, none⟩ db0 u5 src1 (by decide)
    (by decide)
  exact ⟨h.1, h.2.1, h.2.2.1, h.2.2.2.2.2.1⟩

/-- C9: registration never yields any role other than "user": whatever the
request supplies (the UserCreate schema carries username, email and password
only), a successfully created user has role "user" and is the only row added
to storage. -/
theorem C9_registration_role_is_user (hash : String → String) (ui : UserCreate)
    (db db2 : DB) (nid t : Nat) (user : User)
    (h : register_user hash ui db nid t = (.ok user, db2)) :
    user.role = "user" ∧ db2.users = db.users ++ [user] ∧
    db2.sources = db.sources ∧ db2.articles = db.articles := by
  by_cases he : (findUserByEmail db ui.email).isSome = true
  · simp [register_user, he] at h
  · by_cases hn : (findUserByUsername db ui.username).isSome = true
    · simp [register_user, he, hn] at h
    · simp [register_user, he, hn] at h
      obtain ⟨h1, h2⟩ := h
      subst h2
      exact ⟨by rw [← h1], by rw [← h1], rfl, rfl⟩

/-- C9 witness: a concrete registration on the populated state succeeds and
the created user's role is "user" and is the only row added. -/
theorem C9_registration_role_is_user_witness :
    ({ id := 9, username := "dora", email := "d@x.com", password := "pw",
       role := "user", created_at := 1 } : User).role = "user" ∧
    (register_user (fun p => p) ⟨"dora", "d@x.com", "pw"⟩ db0 9 1).2.users =
      db0.users ++
        [{ id := 9, username := "dora", email := "d@x.com", password := "pw",
           role := "user", created_at := 1 }] ∧
    (register_user (fun p => p) ⟨"dora", "d@x.com", "pw"⟩ db0 9 1).2.sources =
      db0.sources ∧
    (register_user (fun p => p) ⟨"dora", "d@x.com", "pw"⟩ db0 9 1).2.articles =
      db0.articles :=
  C9_registration_role_is_user (fun p => p) ⟨"dora", "d@x.com", "pw"⟩ db0
    (register_user (fun p => p) ⟨"dora", "d@x.com", "pw"⟩ db0 9 1).2 9 1
    { id := 9, username := "dora", email := "d@x.com", password := "pw",
      role := "user", created_at := 1 } (by rfl)

/-- C10: updating a source never checks url uniqueness: even when the request
sets the url to one already used by a different stored source, an authorized
update succeeds (it is not a Conflict error) and the duplicate url value is
applied to the target record in storage. -/
theorem C10_update_skips_url_check (sid : Nat) (si : SourceUpdate) (db : DB)
    (u : User) (s other : Source) (hfind : findSource db sid = some s)
    (_hmem : other ∈ db.sources) (_hne : other.id ≠ s.id)
    (hurl : si.url = some other.url)
    (hallow : require_owner_or_admin u s.author_id = true) :
    (update_source sid si db u).1 = .ok (apply_source_update s si) ∧
    (apply_source_update s si).url = other.url ∧
    (update_source sid si db u).2.sources =
      db.sources.map (fun x => if x.id == sid then apply_source_update s si else x) ∧
    (update_source sid si db u).1 ≠ .error .conflict := by
  have hrun : update_source sid si db u =
      (.ok (apply_source_update s si),
       { db with sources :=
           (db.sources.map
             (fun x => if x.id == sid then apply_source_update s si else x)) }) := by
    simp [update_source, hfind, hallow]
  refine ⟨by rw [hrun], ?_, by rw [hrun], by rw [hrun]; simp⟩
  simp [apply_source_update, hurl]

/-- C10 witness: user 5 sets the url of source 1 to "u2", the url of source 2;
the update succeeds and the duplicate url is stored. -/
theorem C10_update_skips_url_check_witness :
    (update_source 1 ⟨none, some "u2", none⟩ db0 u5).1 =
      .ok (apply_source_update src1 ⟨none, some "u2", none⟩) ∧
    (apply_source_update src1 ⟨none, some "u2", none⟩).url = src2.url ∧
    (update_source 1 ⟨none, some "u2", none⟩ db0 u5).1 ≠ .error .conflict := by
  have h := C10_update_skips_url_check 1 ⟨none, some "u2", none⟩ db0 u5 src1 src2
    (by decide) (by decide) (by decide) (by decide) (by decide)
  exact ⟨h.1, h.2.1, h.2.2.2⟩

end NewsAgg
